import Mathlib

/-!
Shallow embedding of the procedural celestial scene of `src/src/App.tsx`
(interactive-globe). Machine floats are modelled as real numbers; the
unseeded `Math.random()` source is modelled as an explicit stream of draws
in `[0, 1)`, passed as a function argument wherever the source calls
`Math.random()`.
-/

/-- A 3-component vector, as stored in the flat Float32 position arrays
(three consecutive entries x, y, z). -/
structure Vec3 where
  x : ℝ
  y : ℝ
  z : ℝ

/-- Componentwise addition, as performed by `positions[i] += velocity[0]`
etc. in the animation loop. -/
noncomputable def Vec3.add (a b : Vec3) : Vec3 :=
  ⟨a.x + b.x, a.y + b.y, a.z + b.z⟩

/-- Componentwise difference, used to speak about the segment spanned by a
shooting star's two endpoints. -/
noncomputable def Vec3.sub (a b : Vec3) : Vec3 :=
  ⟨a.x - b.x, a.y - b.y, a.z - b.z⟩

/-- Euclidean distance of a point from the origin. -/
noncomputable def norm3 (v : Vec3) : ℝ :=
  Real.sqrt (v.x ^ 2 + v.y ^ 2 + v.z ^ 2)

/-- The spherical-shell point sampler inlined at App.tsx lines 78-84 and
145-152: given three raw draws `t`, `u0`, `rr` of `Math.random()`, it sets
`theta = t * PI * 2`, `phi = acos(u0 * 2 - 1)`, `radius = 100 + rr * 900`
and converts to Cartesian coordinates. -/
noncomputable def sampleShell (t u0 rr : ℝ) : Vec3 :=
  let theta := t * Real.pi * 2
  let phi := Real.arccos (u0 * 2 - 1)
  let radius := 100 + rr * 900
  ⟨radius * Real.sin phi * Real.cos theta,
   radius * Real.sin phi * Real.sin theta,
   radius * Real.cos phi⟩

/-- A shooting star: two endpoint positions (6 floats in the `vertices`
buffer, `p1` at indices 0-2 and `p2` at indices 3-5) plus a velocity
vector (`userData.velocity`), per App.tsx lines 140-171. -/
structure ShootingStar where
  p1 : Vec3
  p2 : Vec3
  vel : Vec3

/-- The body of `createShootingStar` (App.tsx lines 140-171): the loop
samples each of the two endpoints with three fresh draws, then each
velocity component is `(Math.random() - 0.5) * 0.3`. The star consumes the
first nine draws `r 0 .. r 8` of its stream in source order. -/
noncomputable def createShootingStar (r : ℕ → ℝ) : ShootingStar :=
  { p1 := sampleShell (r 0) (r 1) (r 2)
    p2 := sampleShell (r 3) (r 4) (r 5)
    vel := ⟨(r 6 - 0.5) * 0.3, (r 7 - 0.5) * 0.3, (r 8 - 0.5) * 0.3⟩ }

/-- One frame of motion for a shooting star (App.tsx lines 186-190): the
loop over the position buffer adds the velocity to every vertex, i.e. to
both endpoints; the velocity itself is not changed. -/
noncomputable def advance (st : ShootingStar) : ShootingStar :=
  ⟨st.p1.add st.vel, st.p2.add st.vel, st.vel⟩

/-- Iterated `advance`. -/
noncomputable def advanceN : ℕ → ShootingStar → ShootingStar
  | 0, st => st
  | n + 1, st => advanceN n (advance st)

/-- The reset condition of App.tsx lines 195-199:
`Math.abs(positions[0]) > 1000 || Math.abs(positions[1]) > 1000 ||
Math.abs(positions[2]) > 1000` - it reads only the first endpoint. -/
def is_out_of_bounds (st : ShootingStar) : Prop :=
  |st.p1.x| > 1000 ∨ |st.p1.y| > 1000 ∨ |st.p1.z| > 1000

/-- The distance from the origin of a sampled shell point is exactly its
sampled radius `100 + rr * 900`. -/
lemma norm3_sampleShell (t u0 rr : ℝ) (h : 0 ≤ rr) :
    norm3 (sampleShell t u0 rr) = 100 + rr * 900 := by
  have hR : (0 : ℝ) ≤ 100 + rr * 900 := by nlinarith
  have h1 : Real.sin (t * Real.pi * 2) ^ 2 + Real.cos (t * Real.pi * 2) ^ 2 = 1 :=
    Real.sin_sq_add_cos_sq _
  have h2 : Real.sin (Real.arccos (u0 * 2 - 1)) ^ 2
      + Real.cos (Real.arccos (u0 * 2 - 1)) ^ 2 = 1 :=
    Real.sin_sq_add_cos_sq _
  have key : ((100 + rr * 900) * Real.sin (Real.arccos (u0 * 2 - 1))
        * Real.cos (t * Real.pi * 2)) ^ 2
      + ((100 + rr * 900) * Real.sin (Real.arccos (u0 * 2 - 1))
        * Real.sin (t * Real.pi * 2)) ^ 2
      + ((100 + rr * 900) * Real.cos (Real.arccos (u0 * 2 - 1))) ^ 2
      = (100 + rr * 900) ^ 2 := by
    linear_combination ((100 + rr * 900) ^ 2
        * Real.sin (Real.arccos (u0 * 2 - 1)) ^ 2) * h1
      + (100 + rr * 900) ^ 2 * h2
  show Real.sqrt _ = _
  rw [show sampleShell t u0 rr
      = ⟨(100 + rr * 900) * Real.sin (Real.arccos (u0 * 2 - 1))
          * Real.cos (t * Real.pi * 2),
         (100 + rr * 900) * Real.sin (Real.arccos (u0 * 2 - 1))
          * Real.sin (t * Real.pi * 2),
         (100 + rr * 900) * Real.cos (Real.arccos (u0 * 2 - 1))⟩ from rfl]
  simpa [key] using Real.sqrt_sq hR

/-- One entry of the parallel star-field attribute arrays
(`starsVertices`, `starsSizes`, `starsBrightness`, App.tsx lines 73-89):
a position, a size scalar and a brightness scalar. -/
structure StarData where
  pos : Vec3
  size : ℝ
  brightness : ℝ

/-- One background star of the star field loop (App.tsx lines 77-89): a
shell position from three draws, then `0.1 + Math.random() * 0.9` for the
size and `0.2 + Math.random() * 0.8` for the brightness; five draws in
source order per star. -/
noncomputable def genStar (r : ℕ → ℝ) : StarData :=
  { pos := sampleShell (r 0) (r 1) (r 2)
    size := 0.1 + r 3 * 0.9
    brightness := 0.2 + r 4 * 0.8 }

/-- The full star field: 20000 stars, star `i` drawing from its own
stream `rf i`. -/
noncomputable def genStarField (rf : ℕ → ℕ → ℝ) : List StarData :=
  (List.range 20000).map fun i => genStar (rf i)

open Classical in
/-- Per-slot pool step inside the `forEach` of App.tsx lines 182-205: the
star is advanced in place; then, if the reset condition fires on the
advanced position, a fresh star is created and installed in the slot
(`shootingStars[index] = newStar`), while the advanced star is removed;
otherwise the advanced star stays. The replacement star is not advanced in
the tick in which it spawns. -/
noncomputable def updateStar (r : ℕ → ℝ) (st : ShootingStar) : ShootingStar :=
  let st' := advance st
  if is_out_of_bounds st' then createShootingStar r else st'

/-- The pool walk of `shootingStars.forEach` with slot counter `i`: each
slot is updated independently with its own respawn stream `r i`. Since the
JS array holds pairwise distinct objects, `shootingStars.indexOf(star)` is
the iteration index, so the replacement lands in the iterated slot. -/
noncomputable def tickPoolAux (r : ℕ → ℕ → ℝ) : ℕ → List ShootingStar → List ShootingStar
  | _, [] => []
  | i, st :: rest => updateStar (r i) st :: tickPoolAux r (i + 1) rest

/-- One frame of the shooting-star pool update (App.tsx lines 182-205). -/
noncomputable def tickPool (r : ℕ → ℕ → ℝ) (pool : List ShootingStar) : List ShootingStar :=
  tickPoolAux r 0 pool

/-- The mutable scene state touched by the animation loop: the sphere's
rotation angle, the star field's rotation angle (both about the vertical
y axis), the star-field attribute data, and the shooting-star pool. -/
structure SceneState where
  sphereRotY : ℝ
  starFieldRotY : ℝ
  starData : List StarData
  shootingStars : List ShootingStar

/-- One tick of `animate` (App.tsx lines 176-209): the sphere rotation
grows by 0.001, the star-field rotation by 0.0002, the star-field
attribute arrays are untouched, and the pool is updated. -/
noncomputable def tick (r : ℕ → ℕ → ℝ) (s : SceneState) : SceneState :=
  ⟨s.sphereRotY + 0.001, s.starFieldRotY + 0.0002, s.starData,
   tickPool r s.shootingStars⟩

/-- Iterated animation ticks; tick `n` respawns from the streams `rs n`. -/
noncomputable def runTicks (rs : ℕ → ℕ → ℕ → ℝ) : ℕ → SceneState → SceneState
  | 0, s => s
  | n + 1, s => runTicks rs n (tick (rs n) s)

/-- The scene as built in the effect body: rotations start at 0, the star
field is generated once from the stream family `rStars`, and the pool is
`Array(5).fill(null).map(createShootingStar)` (App.tsx line 173), slot `i`
drawing from `rShoot i`. -/
noncomputable def initScene (rStars rShoot : ℕ → ℕ → ℝ) : SceneState :=
  ⟨0, 0, genStarField rStars, (List.range 5).map fun i => createShootingStar (rShoot i)⟩

/-- Camera state relevant to resizing: the aspect field set by the handler
and the aspect baked into the projection matrix by
`camera.updateProjectionMatrix()`. -/
structure CameraState where
  aspect : ℝ
  projAspect : ℝ

/-- Renderer output size as set by `renderer.setSize`. -/
structure RendererSize where
  width : ℝ
  height : ℝ

/-- The application state seen by the resize handler: camera, renderer
size, and the scene entities it must not touch. -/
structure AppState where
  camera : CameraState
  renderer : RendererSize
  scene : SceneState

/-- The `handleResize` listener (App.tsx lines 213-217) applied at viewport
dimensions `w`, `h`: it sets `camera.aspect = w / h`, rebuilds the
projection matrix from it, and resizes the renderer; nothing else. -/
noncomputable def handleResize (w h : ℝ) (st : AppState) : AppState :=
  ⟨⟨w / h, w / h⟩, ⟨w, h⟩, st.scene⟩

/-- The collaborator and mutation steps of one `animate` body, in
statement order. -/
inductive AnimEvent where
  | scheduleNextFrame
  | rotateSphere
  | rotateStarField
  | updateShootingStars
  | controlsUpdate
  | renderCall
  deriving DecidableEq, BEq

/-- The statement order of the `animate` body (App.tsx lines 176-209):
`requestAnimationFrame`, the two rotation increments, the pool walk,
`controls.update()`, then `renderer.render(scene, camera)`. -/
def animateTrace : List AnimEvent :=
  [AnimEvent.scheduleNextFrame, AnimEvent.rotateSphere, AnimEvent.rotateStarField,
   AnimEvent.updateShootingStars, AnimEvent.controlsUpdate, AnimEvent.renderCall]

/-- Walking the pool preserves its length, whatever the slot counter. -/
lemma tickPoolAux_length (r : ℕ → ℕ → ℝ) (pool : List ShootingStar) :
    ∀ k, (tickPoolAux r k pool).length = pool.length := by
  induction pool with
  | nil => intro k; rfl
  | cons st rest ih => intro k; simp only [tickPoolAux, List.length_cons, ih (k + 1)]

/-- Slot `i` of the walked pool is the per-slot update of slot `i` of the
input pool: the replacement is installed in place. -/
lemma tickPoolAux_get (r : ℕ → ℕ → ℝ) :
    ∀ (pool : List ShootingStar) (k i : ℕ),
      (tickPoolAux r k pool).get? i = (pool.get? i).map (updateStar (r (k + i))) := by
  intro pool
  induction pool with
  | nil => intro k i; rfl
  | cons st rest ih =>
    intro k i
    cases i with
    | zero =>
      show some (updateStar (r k) st) = some (updateStar (r (k + 0)) st)
      rw [Nat.add_zero]
    | succ i =>
      show (tickPoolAux r (k + 1) rest).get? i
        = (rest.get? i).map (updateStar (r (k + (i + 1))))
      rw [ih (k + 1) i, show k + 1 + i = k + (i + 1) from by omega]

/-- The star-field attribute arrays are never written to by the animation
loop. -/
lemma runTicks_starData (rs : ℕ → ℕ → ℕ → ℝ) :
    ∀ (n : ℕ) (s : SceneState), (runTicks rs n s).starData = s.starData := by
  intro n
  induction n with
  | zero => intro s; rfl
  | succ n ih =>
    intro s
    rw [show runTicks rs (n + 1) s = runTicks rs n (tick (rs n) s) from rfl,
      ih (tick (rs n) s)]
    rfl

/-- Any number of animation ticks leaves the pool length unchanged. -/
lemma runTicks_poolLength (rs : ℕ → ℕ → ℕ → ℝ) :
    ∀ (n : ℕ) (s : SceneState),
      (runTicks rs n s).shootingStars.length = s.shootingStars.length := by
  intro n
  induction n with
  | zero => intro s; rfl
  | succ n ih =>
    intro s
    rw [show runTicks rs (n + 1) s = runTicks rs n (tick (rs n) s) from rfl,
      ih (tick (rs n) s)]
    exact tickPoolAux_length (rs n) s.shootingStars 0

/-- Shell points sampled from draws in the unit interval sit between the
two shell radii. -/
lemma norm3_sampleShell_bounds (t u0 rr : ℝ) (h0 : 0 ≤ rr) (h1 : rr < 1) :
    100 ≤ norm3 (sampleShell t u0 rr) ∧ norm3 (sampleShell t u0 rr) ≤ 1000 := by
  rw [norm3_sampleShell t u0 rr h0]
  constructor <;> nlinarith

/-- Concrete evaluation of the sampler at all-zero draws. -/
lemma sampleShell_zero : sampleShell 0 0 0 = ⟨0, 0, -100⟩ := by
  have h1 : (0 : ℝ) * Real.pi * 2 = 0 := by ring
  have h2 : (0 : ℝ) * 2 - 1 = -1 := by ring
  have h3 : (100 : ℝ) + 0 * 900 = 100 := by ring
  simp only [sampleShell, h1, h2, h3, Real.arccos_neg_one, Real.sin_pi, Real.cos_pi,
    Real.sin_zero, Real.cos_zero, Vec3.mk.injEq]
  norm_num

/-- Concrete evaluation of the sampler at all-half draws. -/
lemma sampleShell_half : sampleShell (1 / 2) (1 / 2) (1 / 2) = ⟨-550, 0, 0⟩ := by
  have h1 : (1 / 2 : ℝ) * Real.pi * 2 = Real.pi := by ring
  have h2 : (1 / 2 : ℝ) * 2 - 1 = 0 := by ring
  have h3 : (100 : ℝ) + 1 / 2 * 900 = 550 := by ring
  simp only [sampleShell, h1, h2, h3, Real.arccos_zero, Real.sin_pi, Real.cos_pi,
    Real.sin_pi_div_two, Real.cos_pi_div_two, Vec3.mk.injEq]
  norm_num

/-- The star of the boundary scenario: first endpoint (999, 0, 0) and
velocity (1, 0, 0); the second endpoint is irrelevant to the scenario and
fixed at the origin. -/
noncomputable def star0 : ShootingStar := ⟨⟨999, 0, 0⟩, ⟨0, 0, 0⟩, ⟨1, 0, 0⟩⟩

/-- After one advance the scenario star's first endpoint is (1000, 0, 0). -/
lemma advance_star0_p1 : (advance star0).p1 = ⟨1000, 0, 0⟩ := by
  simp only [advance, star0, Vec3.add, Vec3.mk.injEq]
  norm_num

/-- At (1000, 0, 0) the reset condition does not fire: the check is a
strict comparison with 1000. -/
lemma advance_star0_not_oob : ¬ is_out_of_bounds (advance star0) := by
  simp only [is_out_of_bounds, advance_star0_p1]
  norm_num

/-- After a second advance the first endpoint is (1001, 0, 0). -/
lemma advance2_star0_p1 : (advance (advance star0)).p1 = ⟨1001, 0, 0⟩ := by
  simp only [advance, star0, Vec3.add, Vec3.mk.injEq]
  norm_num

/-- At (1001, 0, 0) the reset condition fires. -/
lemma advance2_star0_oob : is_out_of_bounds (advance (advance star0)) := by
  refine Or.inl ?_
  rw [show (advance (advance star0)).p1.x = 1001 from by rw [advance2_star0_p1]]
  norm_num

/-- A tick on the singleton pool holding the scenario star performs no
respawn: the advanced star stays in its slot. -/
lemma tickPool_star0 (r : ℕ → ℕ → ℝ) : tickPool r [star0] = [advance star0] := by
  show updateStar (r 0) star0 :: tickPoolAux r 1 [] = [advance star0]
  simp only [tickPoolAux, updateStar]
  rw [if_neg advance_star0_not_oob]

/-- The second tick on that pool does respawn, installing a freshly
sampled star in the single slot. -/
lemma tickPool_star0_twice (r1 r2 : ℕ → ℕ → ℝ) :
    tickPool r2 (tickPool r1 [star0]) = [createShootingStar (r2 0)] := by
  rw [tickPool_star0 r1]
  show updateStar (r2 0) (advance star0) :: tickPoolAux r2 1 [] = [createShootingStar (r2 0)]
  simp only [tickPoolAux, updateStar]
  rw [if_pos advance2_star0_oob]

/-- Claim C2: for every shooting star, the reset condition holds exactly
when some coordinate of the first endpoint exceeds 1000 in absolute value,
and replacing the second endpoint by any point leaves the result
unchanged. -/
theorem c2_out_of_bounds_first_endpoint_only (st : ShootingStar) :
    (is_out_of_bounds st ↔ |st.p1.x| > 1000 ∨ |st.p1.y| > 1000 ∨ |st.p1.z| > 1000) ∧
    ∀ q : Vec3, is_out_of_bounds ⟨st.p1, q, st.vel⟩ ↔ is_out_of_bounds st :=
  ⟨Iff.rfl, fun _ => Iff.rfl⟩

/-- Claim C3 counterexample: in the `animate` body the renderer's draw
call is not invoked before the orbit-control update - the code calls
`controls.update()` on line 207 and `renderer.render` on line 208. -/
theorem c3_render_not_before_controls :
    ¬ animateTrace.indexOf AnimEvent.renderCall
      < animateTrace.indexOf AnimEvent.controlsUpdate := by
  decide

/-- Claim C3 (amended): within one tick the orbit-control update is
invoked before the renderer's draw call, and both come after the rotation
increments and the shooting-star pool update. -/
theorem c3_controls_update_before_render :
    animateTrace.indexOf AnimEvent.controlsUpdate
      < animateTrace.indexOf AnimEvent.renderCall ∧
    animateTrace.indexOf AnimEvent.rotateSphere
      < animateTrace.indexOf AnimEvent.controlsUpdate ∧
    animateTrace.indexOf AnimEvent.rotateStarField
      < animateTrace.indexOf AnimEvent.controlsUpdate ∧
    animateTrace.indexOf AnimEvent.updateShootingStars
      < animateTrace.indexOf AnimEvent.controlsUpdate := by
  decide

/-- Claim C4: a pool tick preserves the pool length, slot i of the walked
pool is the in-place update of slot i of the input pool (a respawn
replaces the departed star at the same index), and after any number of
ticks from the initial scene the pool still holds exactly 5 stars. -/
theorem c4_pool_size_and_slot_ownership (r : ℕ → ℕ → ℝ) (pool : List ShootingStar)
    (i : ℕ) (a b : ℕ → ℕ → ℝ) (rs : ℕ → ℕ → ℕ → ℝ) (n : ℕ) :
    (tickPool r pool).length = pool.length ∧
    (tickPool r pool).get? i = (pool.get? i).map (updateStar (r i)) ∧
    (runTicks rs n (initScene a b)).shootingStars.length = 5 := by
  refine ⟨tickPoolAux_length r pool 0, ?_, ?_⟩
  · simpa using tickPoolAux_get r pool 0 i
  · rw [runTicks_poolLength rs n (initScene a b)]
    simp [initScene]

/-- Claim C8: one tick adds exactly 0.0002 to the star field's rotation
angle about the vertical axis, and the per-point position, size and
brightness data is untouched by that tick and by any number of ticks. -/
theorem c8_star_field_rotation_is_rigid (r : ℕ → ℕ → ℝ) (s : SceneState)
    (rs : ℕ → ℕ → ℕ → ℝ) (n : ℕ) :
    (tick r s).starFieldRotY = s.starFieldRotY + 0.0002 ∧
    (tick r s).starData = s.starData ∧
    (runTicks rs n s).starData = s.starData :=
  ⟨rfl, rfl, runTicks_starData rs n s⟩

/-- Claim C9: the resize handler is idempotent at fixed viewport
dimensions, and it rewrites only the camera and renderer parameters - the
scene entities are untouched. -/
theorem c9_resize_handler_idempotent (w h : ℝ) (st : AppState) :
    handleResize w h (handleResize w h st) = handleResize w h st ∧
    (handleResize w h st).scene = st.scene :=
  ⟨rfl, rfl⟩

/-- Claim C10: one advance adds the same velocity vector to both
endpoints, hence the difference vector between the second and the first
endpoint is unchanged by any number of advances. -/
theorem c10_advance_preserves_segment (st : ShootingStar) (n : ℕ) :
    (advance st).p1 = st.p1.add st.vel ∧
    (advance st).p2 = st.p2.add st.vel ∧
    ((advanceN n st).p2).sub ((advanceN n st).p1) = st.p2.sub st.p1 := by
  refine ⟨rfl, rfl, ?_⟩
  induction n generalizing st with
  | zero => rfl
  | succ n ih =>
    rw [show advanceN (n + 1) st = advanceN n (advance st) from rfl, ih (advance st)]
    simp only [advance, Vec3.add, Vec3.sub, Vec3.mk.injEq]
    refine ⟨by ring, by ring, by ring⟩

/-- Claim C5: shell points - star-field positions and both shooting-star
endpoints - follow the documented spherical conversion with theta in
[0, 2 pi), u in [-1, 1), radius in [100, 1000), and every such point's
distance from the origin lies in [100, 1000]. -/
theorem c5_shell_sampler_formula_and_radius (s : ℕ → ℝ)
    (h : ∀ n, 0 ≤ s n ∧ s n < 1) :
    (100 ≤ norm3 (genStar s).pos ∧ norm3 (genStar s).pos ≤ 1000) ∧
    (100 ≤ norm3 (createShootingStar s).p1 ∧ norm3 (createShootingStar s).p1 ≤ 1000) ∧
    (100 ≤ norm3 (createShootingStar s).p2 ∧ norm3 (createShootingStar s).p2 ≤ 1000) ∧
    ∀ t u0 rr : ℝ, 0 ≤ t → t < 1 → 0 ≤ u0 → u0 < 1 → 0 ≤ rr → rr < 1 →
      ∃ theta u R : ℝ,
        0 ≤ theta ∧ theta < 2 * Real.pi ∧ -1 ≤ u ∧ u < 1 ∧ 100 ≤ R ∧ R < 1000 ∧
        sampleShell t u0 rr =
          ⟨R * Real.sin (Real.arccos u) * Real.cos theta,
           R * Real.sin (Real.arccos u) * Real.sin theta,
           R * Real.cos (Real.arccos u)⟩ ∧
        norm3 (sampleShell t u0 rr) = R := by
  refine ⟨?_, ?_, ?_, ?_⟩
  · exact norm3_sampleShell_bounds (s 0) (s 1) (s 2) (h 2).1 (h 2).2
  · exact norm3_sampleShell_bounds (s 0) (s 1) (s 2) (h 2).1 (h 2).2
  · exact norm3_sampleShell_bounds (s 3) (s 4) (s 5) (h 5).1 (h 5).2
  · intro t u0 rr ht0 ht1 hu0 hu1 hr0 hr1
    have hpi := Real.pi_pos
    refine ⟨t * Real.pi * 2, u0 * 2 - 1, 100 + rr * 900,
      ?_, ?_, ?_, ?_, ?_, ?_, rfl, norm3_sampleShell t u0 rr hr0⟩
    · nlinarith
    · nlinarith
    · nlinarith
    · nlinarith
    · nlinarith
    · nlinarith

/-- Claim C5 witness at the all-half draw stream. -/
theorem c5_shell_sampler_witness :
    100 ≤ norm3 (createShootingStar fun _ => (1 / 2 : ℝ)).p1 ∧
    norm3 (createShootingStar fun _ => (1 / 2 : ℝ)).p1 ≤ 1000 :=
  (c5_shell_sampler_formula_and_radius (fun _ => (1 / 2 : ℝ))
    (fun _ => by norm_num)).2.1

/-- Claim C6: every star of the generated field has its size in
[0.1, 1.0] and its brightness in [0.2, 1.0], and the field's attribute
data after any number of animation ticks is still the generated data, so
the bounds are never violated post-generation. -/
theorem c6_star_size_brightness_in_range (rf : ℕ → ℕ → ℝ)
    (h : ∀ i n, 0 ≤ rf i n ∧ rf i n < 1)
    (st : StarData) (hm : st ∈ genStarField rf) :
    (0.1 ≤ st.size ∧ st.size ≤ 1) ∧ (0.2 ≤ st.brightness ∧ st.brightness ≤ 1) ∧
    ∀ (b : ℕ → ℕ → ℝ) (rs : ℕ → ℕ → ℕ → ℝ) (n : ℕ),
      (runTicks rs n (initScene rf b)).starData = genStarField rf := by
  obtain ⟨i, _, rfl⟩ := List.mem_map.mp hm
  refine ⟨⟨?_, ?_⟩, ⟨?_, ?_⟩, ?_⟩
  · show 0.1 ≤ 0.1 + rf i 3 * 0.9
    nlinarith [(h i 3).1]
  · show 0.1 + rf i 3 * 0.9 ≤ 1
    nlinarith [(h i 3).2, (h i 3).1]
  · show 0.2 ≤ 0.2 + rf i 4 * 0.8
    nlinarith [(h i 4).1]
  · show 0.2 + rf i 4 * 0.8 ≤ 1
    nlinarith [(h i 4).2, (h i 4).1]
  · intro b rs n
    rw [runTicks_starData rs n (initScene rf b), initScene]

/-- Claim C6 witness at the all-half draw stream family. -/
theorem c6_star_size_brightness_witness :
    0.1 ≤ (genStar fun _ => (1 / 2 : ℝ)).size ∧
    (genStar fun _ => (1 / 2 : ℝ)).size ≤ 1 :=
  (c6_star_size_brightness_in_range (fun _ _ => (1 / 2 : ℝ))
    (fun _ _ => by norm_num) (genStar fun _ => (1 / 2 : ℝ))
    (List.mem_map.mpr ⟨0, List.mem_range.mpr (by norm_num), rfl⟩)).1

/-- Claim C7: the first endpoint of a spawned star depends only on draws
0-2 and the second only on draws 3-5 (two separate sampler runs), each
velocity component comes from its own draw and lies in [-0.15, 0.15], and
there is a draw stream on which the two endpoints differ, so the second
endpoint is not a duplicate of the first. -/
theorem c7_spawn_independent_endpoints (r s : ℕ → ℝ)
    (hagree : ∀ i, i < 3 → r i = s i) (hr : ∀ i, 0 ≤ r i ∧ r i < 1) :
    (createShootingStar r).p1 = (createShootingStar s).p1 ∧
    ((∀ i, 3 ≤ i → i < 6 → r i = s i) →
      (createShootingStar r).p2 = (createShootingStar s).p2) ∧
    (createShootingStar r).vel
      = ⟨(r 6 - 0.5) * 0.3, (r 7 - 0.5) * 0.3, (r 8 - 0.5) * 0.3⟩ ∧
    (-0.15 ≤ (createShootingStar r).vel.x ∧ (createShootingStar r).vel.x ≤ 0.15) ∧
    (-0.15 ≤ (createShootingStar r).vel.y ∧ (createShootingStar r).vel.y ≤ 0.15) ∧
    (-0.15 ≤ (createShootingStar r).vel.z ∧ (createShootingStar r).vel.z ≤ 0.15) ∧
    ∃ q : ℕ → ℝ, (∀ i, 0 ≤ q i ∧ q i < 1) ∧
      (createShootingStar q).p1 ≠ (createShootingStar q).p2 := by
  refine ⟨?_, ?_, rfl, ?_, ?_, ?_, ?_⟩
  · show sampleShell (r 0) (r 1) (r 2) = sampleShell (s 0) (s 1) (s 2)
    rw [hagree 0 (by norm_num), hagree 1 (by norm_num), hagree 2 (by norm_num)]
  · intro h6
    show sampleShell (r 3) (r 4) (r 5) = sampleShell (s 3) (s 4) (s 5)
    rw [h6 3 (by norm_num) (by norm_num), h6 4 (by norm_num) (by norm_num),
      h6 5 (by norm_num) (by norm_num)]
  · show -0.15 ≤ (r 6 - 0.5) * 0.3 ∧ (r 6 - 0.5) * 0.3 ≤ 0.15
    constructor <;> nlinarith [(hr 6).1, (hr 6).2]
  · show -0.15 ≤ (r 7 - 0.5) * 0.3 ∧ (r 7 - 0.5) * 0.3 ≤ 0.15
    constructor <;> nlinarith [(hr 7).1, (hr 7).2]
  · show -0.15 ≤ (r 8 - 0.5) * 0.3 ∧ (r 8 - 0.5) * 0.3 ≤ 0.15
    constructor <;> nlinarith [(hr 8).1, (hr 8).2]
  · refine ⟨fun i => if i < 3 then 0 else 1 / 2, ?_, ?_⟩
    · intro i
      by_cases hi : i < 3 <;> norm_num [hi]
    · intro hEq
      rw [show (createShootingStar fun i => if i < 3 then (0 : ℝ) else 1 / 2).p1
            = sampleShell 0 0 0 from by norm_num [createShootingStar],
        show (createShootingStar fun i => if i < 3 then (0 : ℝ) else 1 / 2).p2
            = sampleShell (1 / 2) (1 / 2) (1 / 2) from by norm_num [createShootingStar],
        sampleShell_zero, sampleShell_half] at hEq
      have hz := congrArg Vec3.z hEq
      norm_num at hz

/-- Claim C7 witness: two streams agreeing on the first three draws spawn
the same first endpoint. -/
theorem c7_spawn_independent_witness :
    (createShootingStar fun i => if i < 3 then (1 / 2 : ℝ) else 1 / 4).p1
      = (createShootingStar fun i => if i < 3 then (1 / 2 : ℝ) else 3 / 4).p1 :=
  (c7_spawn_independent_endpoints
    (fun i => if i < 3 then (1 / 2 : ℝ) else 1 / 4)
    (fun i => if i < 3 then (1 / 2 : ℝ) else 3 / 4)
    (fun i hi => by simp [hi])
    (fun i => by by_cases hi : i < 3 <;> norm_num [hi])).1

/-- Claim C1 counterexample: in the documented scenario - a singleton pool
with first endpoint (999, 0, 0) and velocity (1, 0, 0) - one advance puts
the first endpoint at (1000, 0, 0), but the strict comparison of the reset
check does not fire there, so no respawn occurs: the tick keeps the
advanced original star in the slot. -/
theorem c1_boundary_no_respawn :
    (advance star0).p1 = ⟨1000, 0, 0⟩ ∧
    ¬ is_out_of_bounds (advance star0) ∧
    tickPool (fun _ _ => (1 / 2 : ℝ)) [star0] = [advance star0] :=
  ⟨advance_star0_p1, advance_star0_not_oob, tickPool_star0 _⟩

/-- Claim C1 (amended): in the scenario pool, one advance puts the first
endpoint at (1000, 0, 0) where the strict bounds check returns false and
the tick keeps the advanced star; after a second advance the endpoint is
at (1001, 0, 0), the check returns true, the second tick respawns, and
the pool then holds exactly 1 star whose first endpoint's distance from
the origin lies in [100, 1000]. -/
theorem c1_respawn_after_second_tick (r1 r2 : ℕ → ℕ → ℝ)
    (h : ∀ n, 0 ≤ r2 0 n ∧ r2 0 n < 1) :
    tickPool r1 [star0] = [advance star0] ∧
    (advance star0).p1 = ⟨1000, 0, 0⟩ ∧
    ¬ is_out_of_bounds (advance star0) ∧
    (advance (advance star0)).p1 = ⟨1001, 0, 0⟩ ∧
    is_out_of_bounds (advance (advance star0)) ∧
    tickPool r2 (tickPool r1 [star0]) = [createShootingStar (r2 0)] ∧
    (tickPool r2 (tickPool r1 [star0])).length = 1 ∧
    ∀ st ∈ tickPool r2 (tickPool r1 [star0]),
      100 ≤ norm3 st.p1 ∧ norm3 st.p1 ≤ 1000 := by
  refine ⟨tickPool_star0 r1, advance_star0_p1, advance_star0_not_oob,
    advance2_star0_p1, advance2_star0_oob, tickPool_star0_twice r1 r2, ?_, ?_⟩
  · rw [tickPool_star0_twice r1 r2]
    rfl
  · intro st hm
    rw [tickPool_star0_twice r1 r2, List.mem_singleton] at hm
    subst hm
    exact norm3_sampleShell_bounds (r2 0 0) (r2 0 1) (r2 0 2) (h 2).1 (h 2).2

/-- Claim C1 witness: a concrete run of the amended scenario with the
all-quarter respawn stream. -/
theorem c1_respawn_witness :
    (tickPool (fun _ _ => (1 / 4 : ℝ))
      (tickPool (fun _ _ => (1 / 4 : ℝ)) [star0])).length = 1 :=
  (c1_respawn_after_second_tick (fun _ _ => (1 / 4 : ℝ)) (fun _ _ => (1 / 4 : ℝ))
    (fun _ => by norm_num)).2.2.2.2.2.2.1
